import Mathlib

/-!
Verification of the orbit-sdk-scripts deployment pipeline against its design
specification.

The TypeScript sources are shallowly embedded: JavaScript strings are modelled
as `List Char` (`Str`), template-literal interpolation of numbers as decimal
rendering (`decChars`), `Array.prototype.sort()` on file names as a stable
insertion sort under code-unit lexicographic comparison (`lexLt`), and each
script's control flow as a total Lean function over explicit inputs (network
responses, environment variables and directory listings are parameters).
-/

set_option maxRecDepth 100000

/-- JavaScript strings, modelled as their list of code points. -/
abbrev Str := List Char

/-- Embeds a Lean string literal as a `Str`. -/
def str (s : String) : Str := s.data

/-- The character for a single decimal digit (`0`–`9` for `d < 10`). -/
def digitChar (d : Nat) : Char := Char.ofNat (48 + d)

/-- Little-endian decimal digit characters of `n`, with explicit fuel so the
definition is structurally recursive (any `fuel ≥ n` yields all digits). -/
def decAux : Nat → Nat → List Char
  | 0, _ => []
  | _ + 1, 0 => []
  | fuel + 1, n + 1 => digitChar ((n + 1) % 10) :: decAux fuel ((n + 1) / 10)

/-- Decimal rendering of a natural number, as produced by JavaScript
template-literal interpolation of a (safe-integer) number. -/
def decChars (n : Nat) : Str :=
  if n = 0 then [digitChar 0] else (decAux n n).reverse

/-- Model of `String.prototype.startsWith`. -/
def jsStartsWith (p s : Str) : Bool := s.take p.length == p

/-- Model of `String.prototype.endsWith`. -/
def jsEndsWith (p s : Str) : Bool := s.drop (s.length - p.length) == p

/-- Code-unit lexicographic strict comparison between JavaScript strings, the
order used by argument-less `Array.prototype.sort()`. -/
def lexLt : Str → Str → Bool
  | [], [] => false
  | [], _ :: _ => true
  | _ :: _, [] => false
  | a :: as, b :: bs => if a < b then true else if b < a then false else lexLt as bs

/-- Insertion step of the sort: keeps `x` after every strictly smaller entry. -/
def insertSorted (x : Str) : List Str → List Str
  | [] => [x]
  | y :: ys => if lexLt y x then y :: insertSorted x ys else x :: y :: ys

/-- Model of `Array.prototype.sort()` (ascending lexicographic), as insertion sort. -/
def sortStrings : List Str → List Str
  | [] => []
  | x :: xs => insertSorted x (sortStrings xs)

/-- File-name filter used by `parse-deployment` and `verify-contracts`:
`f.startsWith('deployment-') && f.endsWith('.json')`. -/
def isDeploymentFile (f : Str) : Bool :=
  jsStartsWith (str "deployment-") f && jsEndsWith (str ".json") f

/-- The deployment record file name `deployment-<chainId>-<unixMillis>.json`
written by `deploy-orbit.ts`. -/
def deploymentFilename (chainId millis : Nat) : Str :=
  str "deployment-" ++ decChars chainId ++ str "-" ++ decChars millis ++ str ".json"

/-- Model of `persist`: writing a new timestamped record file into the directory. -/
def persist (dir : List Str) (chainId millis : Nat) : List Str :=
  dir ++ [deploymentFilename chainId millis]

/-- Model of `loadLatest`: `readdirSync('deployments').filter(...).sort().reverse()[0]`,
the file whose record downstream steps consume. -/
def latestDeploymentFile (dir : List Str) : Option Str :=
  ((sortStrings (dir.filter isDeploymentFile)).reverse).head?

/-! Numeric value of a big-endian digit list. -/

/-- The value of a big-endian list of decimal digits. -/
def beVal : List Nat → Nat
  | [] => 0
  | d :: ds => d * 10 ^ ds.length + beVal ds

/-! Receipt Reconciler: `decodeEventLog` against the `RollupCreated` ABI. -/

/-- A transaction-receipt log entry: indexed topics and the 32-byte data words. -/
structure EthLog where
  topics : List Nat
  data : List Nat
deriving DecidableEq

/-- The `topic[0]` keccak-256 hash of the `RollupCreated` event signature that
`decodeEventLog` matches a log against.  The concrete value is irrelevant to
every property proved here (which quantify over logs relative to decode
success), so it is modelled as a fixed distinguished constant. -/
def rollupCreatedTopic : Nat := 0xdd3a456706f17bbda3a71ec6c1fea236b1afef5f6e8e3234ce4f37ec1db11a46

/-- Truncation of a 32-byte word to its trailing 20 bytes, as the ABI decoder
does when reading an `address` parameter. -/
def addr160 (w : Nat) : Nat := w % 1461501637330902918203684832716283019655932542976

/-- The eleven decoded fields of a `RollupCreated` event: two indexed
addresses followed by nine non-indexed addresses, in ABI order. -/
structure RollupCreatedArgs where
  rollupAddress : Nat
  nativeToken : Nat
  inboxAddress : Nat
  outbox : Nat
  rollupEventInbox : Nat
  challengeManager : Nat
  adminProxy : Nat
  sequencerInbox : Nat
  bridge : Nat
  upgradeExecutor : Nat
  validatorWalletCreator : Nat
deriving DecidableEq

/-- All address fields fit in 20 bytes (true of any ABI-encoded address). -/
def validAddrs (a : RollupCreatedArgs) : Prop :=
  a.rollupAddress < 2 ^ 160 ∧ a.nativeToken < 2 ^ 160 ∧ a.inboxAddress < 2 ^ 160 ∧
  a.outbox < 2 ^ 160 ∧ a.rollupEventInbox < 2 ^ 160 ∧ a.challengeManager < 2 ^ 160 ∧
  a.adminProxy < 2 ^ 160 ∧ a.sequencerInbox < 2 ^ 160 ∧ a.bridge < 2 ^ 160 ∧
  a.upgradeExecutor < 2 ^ 160 ∧ a.validatorWalletCreator < 2 ^ 160

instance (a : RollupCreatedArgs) : Decidable (validAddrs a) := by
  unfold validAddrs
  infer_instance

/-- Model of `decodeEventLog` against the `RollupCreated` ABI: succeeds
exactly when `topics` is the event topic followed by the two indexed address
words and `data` holds exactly the nine non-indexed words; any other log shape
throws inside the loop, which the caller swallows (modelled as `none`). -/
def decodeEventLogRollupCreated (l : EthLog) : Option RollupCreatedArgs :=
  match l.topics, l.data with
  | [t0, w1, w2], [d0, d1, d2, d3, d4, d5, d6, d7, d8] =>
    if t0 = rollupCreatedTopic then
      some ⟨addr160 w1, addr160 w2, addr160 d0, addr160 d1, addr160 d2, addr160 d3,
        addr160 d4, addr160 d5, addr160 d6, addr160 d7, addr160 d8⟩
    else none
  | _, _ => none

/-- An `EthLog` carrying exactly the `RollupCreated` fields of `a`. -/
def encodeRollupCreated (a : RollupCreatedArgs) : EthLog :=
  { topics := [rollupCreatedTopic, a.rollupAddress, a.nativeToken],
    data := [a.inboxAddress, a.outbox, a.rollupEventInbox, a.challengeManager,
      a.adminProxy, a.sequencerInbox, a.bridge, a.upgradeExecutor,
      a.validatorWalletCreator] }

/-- The `for (const log of receipt.logs)` scan: first log that decodes wins,
decode failures are swallowed and iteration continues. -/
def findRollupCreated : List EthLog → Option RollupCreatedArgs
  | [] => none
  | l :: ls =>
    match decodeEventLogRollupCreated l with
    | some a => some a
    | none => findRollupCreated ls

/-- The `contracts` mapping of a deployment record: role name to address,
optional until resolved. -/
structure ContractsMap where
  rollup : Option Nat := none
  inbox : Option Nat := none
  outbox : Option Nat := none
  adminProxy : Option Nat := none
  sequencerInbox : Option Nat := none
  bridge : Option Nat := none
  validatorWalletCreator : Option Nat := none
deriving DecidableEq

/-- The contracts mapping right after submission, before reconciliation. -/
def emptyContracts : ContractsMap := {}

/-- The `deployment.contracts = {...}` assignment of `parse-deployment`:
the projection of a decoded `RollupCreated` event onto the record's roles. -/
def contractsOfArgs (a : RollupCreatedArgs) : ContractsMap :=
  { rollup := some a.rollupAddress, inbox := some a.inboxAddress,
    outbox := some a.outbox, adminProxy := some a.adminProxy,
    sequencerInbox := some a.sequencerInbox, bridge := some a.bridge,
    validatorWalletCreator := some a.validatorWalletCreator }

/-- Result of the `parse-deployment` reconciliation: the contracts mapping written
back into the record when some log decodes. -/
def parseDeploymentContracts (logs : List EthLog) : Option ContractsMap :=
  (findRollupCreated logs).map contractsOfArgs

/-! Reconciliation outcome inside `deploy-orbit.ts` when no log matches. -/

/-- Observable outcome of the reconciliation step of `deploy-orbit.ts`: the
contracts mapping stored in the persisted record, whether the record file was
written, whether the process exited at this step, and whether the operator
was told to re-run `parse-deployment` against the saved transaction hash. -/
structure ReconcileOutcome where
  contracts : ContractsMap
  persisted : Bool
  exited : Bool
  instructedRerun : Bool
deriving DecidableEq

/-- The post-receipt flow of `deploy-orbit.ts`: scan the logs; on a match the
SDK's `getCoreContracts()` result (`sdk`, an external black box) becomes the
record's contracts; on no match it warns, instructs a manual
`parse-deployment` re-run, and still writes the record with `contracts: {}`.
In both cases `writeFileSync` runs and the pipeline continues. -/
def reconcileAndPersist (sdk : ContractsMap) (logs : List EthLog) : ReconcileOutcome :=
  match findRollupCreated logs with
  | some _ =>
    { contracts := sdk, persisted := true, exited := false, instructedRerun := false }
  | none =>
    { contracts := emptyContracts, persisted := true, exited := false,
      instructedRerun := true }

/-! SHA-256 (`crypto.createHash('sha256')`), needed for the deterministic
namespace derivation of the compose generator.  Validated against the FIPS
180-4 test vectors for the empty, `"abc"` and multi-block messages. -/

/-- Truncation to a 32-bit word. -/
def w32 (n : Nat) : Nat := n % 4294967296

/-- 32-bit right rotation. -/
def rotr32 (k x : Nat) : Nat := w32 ((x >>> k) ||| (x <<< (32 - k)))

/-- 32-bit bitwise complement. -/
def bnot32 (x : Nat) : Nat := x ^^^ 4294967295

/-- The 64 SHA-256 round constants. -/
def sha256K : List Nat :=
  [1116352408, 1899447441, 3049323471, 3921009573,
   961987163, 1508970993, 2453635748, 2870763221,
   3624381080, 310598401, 607225278, 1426881987,
   1925078388, 2162078206, 2614888103, 3248222580,
   3835390401, 4022224774, 264347078, 604807628,
   770255983, 1249150122, 1555081692, 1996064986,
   2554220882, 2821834349, 2952996808, 3210313671,
   3336571891, 3584528711, 113926993, 338241895,
   666307205, 773529912, 1294757372, 1396182291,
   1695183700, 1986661051, 2177026350, 2456956037,
   2730485921, 2820302411, 3259730800, 3345764771,
   3516065817, 3600352804, 4094571909, 275423344,
   430227734, 506948616, 659060556, 883997877,
   958139571, 1322822218, 1537002063, 1747873779,
   1955562222, 2024104815, 2227730452, 2361852424,
   2428436474, 2756734187, 3204031479, 3329325298]

/-- The eight 32-bit working variables / hash state of SHA-256. -/
structure Hash8 where
  a : Nat
  b : Nat
  c : Nat
  d : Nat
  e : Nat
  f : Nat
  g : Nat
  h : Nat
deriving DecidableEq

/-- The SHA-256 initial hash value. -/
def sha256H0 : Hash8 :=
  ⟨1779033703, 3144134277, 1013904242, 2773480762,
   1359893119, 2600822924, 528734635, 1541459225⟩

/-- Message-schedule mixing function σ₀. -/
def smallSigma0 (x : Nat) : Nat := rotr32 7 x ^^^ rotr32 18 x ^^^ (x >>> 3)

/-- Message-schedule mixing function σ₁. -/
def smallSigma1 (x : Nat) : Nat := rotr32 17 x ^^^ rotr32 19 x ^^^ (x >>> 10)

/-- Compression mixing function Σ₀. -/
def bigSigma0 (x : Nat) : Nat := rotr32 2 x ^^^ rotr32 13 x ^^^ rotr32 22 x

/-- Compression mixing function Σ₁. -/
def bigSigma1 (x : Nat) : Nat := rotr32 6 x ^^^ rotr32 11 x ^^^ rotr32 25 x

/-- Extends the 16 block words to the full 64-word message schedule. -/
def extendSchedule (ws : List Nat) : Nat → List Nat
  | 0 => ws
  | k + 1 =>
    let n := ws.length
    let next := w32 (smallSigma1 (ws.getD (n - 2) 0) + ws.getD (n - 7) 0 +
      smallSigma0 (ws.getD (n - 15) 0) + ws.getD (n - 16) 0)
    extendSchedule (ws ++ [next]) k

/-- One SHA-256 compression round. -/
def sha256Round (s : Hash8) (kw : Nat) (w : Nat) : Hash8 :=
  let s1 := bigSigma1 s.e
  let ch := (s.e &&& s.f) ^^^ (bnot32 s.e &&& s.g)
  let temp1 := w32 (s.h + s1 + ch + kw + w)
  let s0 := bigSigma0 s.a
  let maj := (s.a &&& s.b) ^^^ (s.a &&& s.c) ^^^ (s.b &&& s.c)
  let temp2 := w32 (s0 + maj)
  ⟨w32 (temp1 + temp2), s.a, s.b, s.c, w32 (s.d + temp1), s.e, s.f, s.g⟩

/-- Folds the 64 rounds over the paired constants and schedule words. -/
def sha256Rounds (s : Hash8) : List (Nat × Nat) → Hash8
  | [] => s
  | (kw, w) :: rest => sha256Rounds (sha256Round s kw w) rest

/-- Processes one 512-bit block. -/
def sha256Block (h : Hash8) (block : List Nat) : Hash8 :=
  let ws := extendSchedule block 48
  let s := sha256Rounds h (sha256K.zip ws)
  ⟨w32 (h.a + s.a), w32 (h.b + s.b), w32 (h.c + s.c), w32 (h.d + s.d),
   w32 (h.e + s.e), w32 (h.f + s.f), w32 (h.g + s.g), w32 (h.h + s.h)⟩

/-- Big-endian byte rendering of `n` in `k` bytes. -/
def toBytesBE : Nat → Nat → List Nat
  | 0, _ => []
  | k + 1, n => toBytesBE k (n / 256) ++ [n % 256]

/-- SHA-256 padding: a `0x80` byte, zeros to 56 mod 64, then the 64-bit
big-endian bit length. -/
def sha256Pad (msg : List Nat) : List Nat :=
  let len := msg.length
  let zeros := (119 - len % 64) % 64
  msg ++ [128] ++ List.replicate zeros 0 ++ toBytesBE 8 (8 * len)

/-- Groups bytes into big-endian 32-bit words. -/
def bytesToWords : List Nat → List Nat
  | b0 :: b1 :: b2 :: b3 :: rest => (((b0 * 256 + b1) * 256 + b2) * 256 + b3) :: bytesToWords rest
  | _ => []

/-- Splits a word list into 16-word blocks (fuel-bounded for structural
recursion; `fuel = length` always suffices). -/
def chunksAux : Nat → List Nat → List (List Nat)
  | 0, _ => []
  | _ + 1, [] => []
  | fuel + 1, l => l.take 16 :: chunksAux fuel (l.drop 16)

/-- SHA-256 of a byte string, as the final eight-word state. -/
def sha256Words (msg : List Nat) : Hash8 :=
  let padded := bytesToWords (sha256Pad msg)
  (chunksAux padded.length padded).foldl sha256Block sha256H0

/-- Lower-case hex digit character. -/
def hexDigit (d : Nat) : Char :=
  if d < 10 then Char.ofNat (48 + d) else Char.ofNat (87 + d)

/-- Eight-character lower-case hex rendering of a 32-bit word. -/
def toHex8 (w : Nat) : List Char :=
  [hexDigit (w / 268435456 % 16), hexDigit (w / 16777216 % 16), hexDigit (w / 1048576 % 16),
   hexDigit (w / 65536 % 16), hexDigit (w / 4096 % 16), hexDigit (w / 256 % 16),
   hexDigit (w / 16 % 16), hexDigit (w % 16)]

/-- Model of `digest` in hex: the 64-character lower-case hex digest. -/
def sha256Hex (msg : List Nat) : Str :=
  let s := sha256Words msg
  toHex8 s.a ++ toHex8 s.b ++ toHex8 s.c ++ toHex8 s.d ++
  toHex8 s.e ++ toHex8 s.f ++ toHex8 s.g ++ toHex8 s.h

/-- The bytes `hash.update` consumes for an (ASCII) JavaScript string. -/
def strBytes (s : Str) : List Nat := s.map Char.toNat

/-- The auto-generated namespace digest prefix:
`crypto.createHash('sha256').update(`orbit-${chainId}`).digest('hex').substring(0, 20)`. -/
def autoNamespaceHex (chainId : Nat) : Str :=
  (sha256Hex (strBytes (str "orbit-" ++ decChars chainId))).take 20

/-- The full auto-generated namespace value `'0x' + hash.substring(0, 20)`. -/
def autoNamespace (chainId : Nat) : Str := str "0x" ++ autoNamespaceHex chainId

/-- Membership test in the lower-case hex alphabet. -/
def isHexChar (c : Char) : Bool := (str "0123456789abcdef").contains c

/-! Compose File Generator (`generate-docker-compose.ts`, current variant). -/

/-- JavaScript `a || b` for an optional string option: `undefined` and the
empty string are falsy and select the default. -/
def jsOrStr (v : Option Str) (d : Str) : Str :=
  match v with
  | none => d
  | some s => if s = [] then d else s

/-- JavaScript `a || b` for an optional number: `undefined` and `0` are falsy. -/
def jsOrNat (v : Option Nat) (d : Nat) : Nat :=
  match v with
  | none => d
  | some n => if n = 0 then d else n

/-- JavaScript truthiness of a string. -/
def jsTruthy (s : Str) : Bool := !(s == [])

/-- Model of the ternary `startsWith`-slice expression: the namespace-id normalization
applied when building the celestia-server entrypoint. -/
def strip0x (s : Str) : Str := if jsStartsWith (str "0x") s then s.drop 2 else s

/-- Model of `String.prototype.toLowerCase` (ASCII-faithful). -/
def jsToLower (s : Str) : Str := s.map Char.toLower

/-- Model of the whitespace-run replacement: each maximal whitespace run becomes one dash.
The flag records whether the previous character was inside a run. -/
def replWsAux : Bool → Str → Str
  | _, [] => []
  | inWs, c :: cs =>
    if c.isWhitespace then
      if inWs then replWsAux true cs else '-' :: replWsAux true cs
    else c :: replWsAux false cs

/-- Model of the whitespace-run replacement on a whole string. -/
def replWs (s : Str) : Str := replWsAux false s

/-- The `CelestiaOptions` CLI options record. -/
structure CelestiaOptions where
  celestiaNamespace : Option Str := none
  celestiaRpcEndpoint : Option Str := none
  celestiaAuthToken : Option Str := none
  celestiaCoreNetwork : Option Str := none
  celestiaCoreToken : Option Str := none
  celestiaCoreUrl : Option Str := none
  celestiaEnableCoreTls : Option Bool := none
  celestiaKeyPath : Option Str := none
  nitroImage : Option Str := none
  celestiaServerImage : Option Str := none
  containerName : Option Str := none
deriving DecidableEq

/-- The fields the generator reads from the parsed `nodeConfig.json`. -/
structure NodeConfigInput where
  chainId : Nat
  chainName : Str
  httpPort : Option Nat := none
deriving DecidableEq

/-- The `nitro-celestia-node` service of the generated descriptor. -/
structure ServiceNode where
  image : Str
  container_name : Str
  depends_on : List Str
  ports : List Str
  volumes : List Str
  command : List Str
deriving DecidableEq

/-- The `celestia-server` service of the generated descriptor. -/
structure ServiceCelestia where
  image : Str
  container_name : Str
  entrypoint : List Str
  ports : List Str
  volumes : Option (List Str) := none
deriving DecidableEq

/-- The generated orchestration descriptor: two services plus the top-level
named-volume declarations (presence of the `node-data` and `celestia-keys`
keys). -/
structure DockerComposeConfig where
  nitroCelestiaNode : ServiceNode
  celestiaServer : ServiceCelestia
  volumeNodeData : Bool
  volumeCelestiaKeys : Bool
deriving DecidableEq

/-- Model of `generateDockerCompose` up to the
point where the descriptor is rendered: builds the entrypoint, the two
services and the volume declarations (file reading, rendering and console
output are handled by the caller / `generateYaml`). -/
def generateDockerCompose (nodeConfigPath : Str) (nodeConfig : NodeConfigInput)
    (options : CelestiaOptions) : DockerComposeConfig :=
  let chainId := nodeConfig.chainId
  let httpPort := jsOrNat nodeConfig.httpPort 8547
  let celestiaNamespace := jsOrStr options.celestiaNamespace (autoNamespace chainId)
  let celestiaRpcEndpoint := jsOrStr options.celestiaRpcEndpoint (str "http://0.0.0.0:26658/")
  let celestiaCoreNetwork := jsOrStr options.celestiaCoreNetwork (str "mocha-4")
  let celestiaCoreToken := jsOrStr options.celestiaCoreToken []
  let celestiaCoreUrl := jsOrStr options.celestiaCoreUrl []
  let celestiaEnableCoreTls := !(options.celestiaEnableCoreTls == some false)
  let celestiaAuthToken := jsOrStr options.celestiaAuthToken []
  let nitroImage := options.nitroImage.getD (str "ghcr.io/celestiaorg/nitro:v3.6.8")
  let celestiaServerImage :=
    options.celestiaServerImage.getD (str "ghcr.io/celestiaorg/nitro-das-celestia:v0.6.3-mocha")
  let containerName :=
    options.containerName.getD (str "orbit-" ++ replWs (jsToLower nodeConfig.chainName))
  let celestiaEntrypoint :=
    [str "/bin/celestia-server", str "--celestia.experimental-tx-client",
     str "--celestia.core-network", celestiaCoreNetwork] ++
    (if jsTruthy celestiaCoreToken then [str "--celestia.core-token", celestiaCoreToken]
     else []) ++
    (if jsTruthy celestiaCoreUrl then [str "--celestia.core-url", celestiaCoreUrl]
     else []) ++
    (if celestiaEnableCoreTls then [str "--celestia.enable-core-tls"] else []) ++
    [str "--celestia.with-writer", str "--celestia.namespace-id",
     strip0x celestiaNamespace, str "--rpc-addr", str "0.0.0.0", str "--rpc-port",
     str "26657", str "--celestia.rpc", celestiaRpcEndpoint, str "--log-level",
     str "DEBUG"] ++
    (if jsTruthy celestiaAuthToken then [str "--celestia.auth-token", celestiaAuthToken]
     else [str "--celestia.auth-token", str ""])
  let serverVolumes :=
    match options.celestiaKeyPath with
    | some keyPath =>
      if jsTruthy keyPath then [keyPath ++ str ":/home/celestia/"]
      else [str "celestia-keys:/home/celestia/"]
    | none => [str "celestia-keys:/home/celestia/"]
  { nitroCelestiaNode :=
      { image := nitroImage, container_name := containerName,
        depends_on := [str "celestia-server"],
        ports := [str "8547:" ++ decChars httpPort, str "8548:8548", str "9642:9642",
          str "6070:6070"],
        volumes := [nodeConfigPath ++ str ":/home/user/nodeConfig.json:ro",
          str "node-data:/home/user/.arbitrum/local/nitro"],
        command := [str "--conf.file", str "/home/user/nodeConfig.json"] },
    celestiaServer :=
      { image := celestiaServerImage, container_name := str "celestia-server",
        entrypoint := celestiaEntrypoint,
        ports := [str "1317:1317", str "9090:9090", str "26657:26657", str "1095:1095",
          str "8080:8080"],
        volumes := some serverVolumes },
    volumeNodeData := true,
    volumeCelestiaKeys := true }

/-- Renders each item as an indented YAML list line. -/
def yamlLines (f : Str → Str) (items : List Str) : Str :=
  List.intercalate (str "\n") (items.map f)

/-- Model of `generateYaml`: pure string templating of the descriptor. -/
def generateYaml (config : DockerComposeConfig) : Str :=
  str "# Docker Compose configuration for Orbit x Celestia chain\n# Generated from nodeConfig.json\n#\n# The Nitro node reads all its configuration from the mounted config file.\n# Celestia server configuration is included with all required fields.\n\nservices:\n  nitro-celestia-node:\n    image: " ++
  config.nitroCelestiaNode.image ++
  str "\n    container_name: " ++ config.nitroCelestiaNode.container_name ++
  str "\n    depends_on:\n" ++
  yamlLines (fun d => str "      - " ++ d) config.nitroCelestiaNode.depends_on ++
  str "\n    ports:\n" ++
  yamlLines (fun p => str "      - \"" ++ p ++ str "\"") config.nitroCelestiaNode.ports ++
  str "\n    volumes:\n" ++
  yamlLines (fun v => str "      - " ++ v) config.nitroCelestiaNode.volumes ++
  str "\n    command:\n" ++
  yamlLines (fun c => str "      - " ++ c) config.nitroCelestiaNode.command ++
  str "\n\n  celestia-server:\n    image: " ++ config.celestiaServer.image ++
  str "\n    container_name: " ++ config.celestiaServer.container_name ++
  str "\n    entrypoint:\n" ++
  yamlLines (fun e => str "      - \"" ++ e ++ str "\"") config.celestiaServer.entrypoint ++
  str "\n    ports:\n" ++
  yamlLines (fun p => str "      - \"" ++ p ++ str "\"") config.celestiaServer.ports ++
  (match config.celestiaServer.volumes with
   | some vs =>
     if vs.length > 0 then
       str "\n    volumes:\n" ++ yamlLines (fun v => str "      - " ++ v) vs
     else []
   | none => []) ++
  str "\n\nvolumes:\n  node-data:" ++
  (if config.volumeCelestiaKeys then str "\n  celestia-keys:" else []) ++
  str "\n"

/-! Node Config Generator: the DA-provider block injection of `deploy-orbit.ts`. -/

/-- The `rpc` sub-block of the injected `da-provider` configuration. -/
structure DaRpcConfig where
  url : Str
  retries : Nat
  retryErrors : Str
  argLogLimit : Nat
  websocketMessageSizeLimit : Nat
deriving DecidableEq

/-- The injected `node['da-provider']` block. -/
structure DaProviderConfig where
  enable : Bool
  withWriter : Bool
  rpc : DaRpcConfig
deriving DecidableEq

/-- The fields of the base config's `node` block that the DA wiring touches:
the injected `da-provider`, `data-availability.enable` and
`dangerous.disable-blob-reader`. -/
structure NodeSettingsBlock where
  daProvider : Option DaProviderConfig := none
  dataAvailabilityEnable : Bool
  disableBlobReader : Bool
deriving DecidableEq

/-- The `DA_PROVIDER_*` environment variables (numeric knobs already parsed;
an unset or empty variable is `none`). -/
structure DaEnv where
  daProviderUrl : Option Str := none
  daProviderRetries : Option Nat := none
  daProviderRetryErrors : Option Str := none
  daProviderArgLogLimit : Option Nat := none
  daProviderWsMessageSizeLimit : Option Nat := none
deriving DecidableEq

/-- The documented default retryable-error pattern. -/
def defaultRetryErrors : Str :=
  str "websocket: close.*|dial tcp .*|.*i/o timeout|.*connection reset by peer|.*connection refused"

/-- The DA-provider injection of `deploy-orbit.ts`: builds
`node['da-provider']` from the environment with its documented defaults, then
forces the conflicting built-in mechanisms off
(`node['data-availability'].enable = false`,
`node['dangerous']['disable-blob-reader'] = true`). -/
def addDaProviderConfig (env : DaEnv) (node : NodeSettingsBlock) : NodeSettingsBlock :=
  { node with
    daProvider := some
      { enable := true, withWriter := true,
        rpc :=
          { url := jsOrStr env.daProviderUrl (str "http://celestia-server:26657"),
            retries := env.daProviderRetries.getD 3,
            retryErrors := jsOrStr env.daProviderRetryErrors defaultRetryErrors,
            argLogLimit := env.daProviderArgLogLimit.getD 2048,
            websocketMessageSizeLimit := env.daProviderWsMessageSizeLimit.getD 268435456 } },
    dataAvailabilityEnable := false,
    disableBlobReader := true }

/-! Balance Gate of `deploy-orbit.ts`. -/

/-- The externally observable actions of the deployment pipeline around the
balance gate. -/
inductive DeployAction where
  | rpcGetBalance
  | printInsufficientBalance (faucetUrl : Str)
  | exitProcess (code : Nat)
  | buildTransaction
  | rpcSendTransaction
deriving DecidableEq

/-- Threshold of 0.5 native-currency units in wei. -/
def balanceThresholdWei : Nat := 500000000000000000

/-- The balance-gate section of `main()`: read the balance; if it is below the
threshold, print the insufficient-balance message with the faucet link and
exit with code 1 before any transaction is prepared; otherwise continue into
transaction preparation and submission (the first post-gate build and the
single `sendTransaction` broadcast). -/
def deployPipelineActions (balance : Nat) : List DeployAction :=
  [DeployAction.rpcGetBalance] ++
  (if balance < balanceThresholdWei then
    [DeployAction.printInsufficientBalance (str "https://sepoliafaucet.com/"),
     DeployAction.exitProcess 1]
  else
    [DeployAction.buildTransaction, DeployAction.rpcSendTransaction])

/-! Native-token display and the deployment summary of `deploy-orbit.ts`. -/

/-- The all-zero address sentinel meaning "use the chain's native currency". -/
def zeroAddress : Str := str "0x0000000000000000000000000000000000000000"

/-- Value shown for the native token on the Deployment Configuration
parameter display: `ETH` for the zero-address sentinel. -/
def nativeTokenDisplay (nativeToken : Str) : Str :=
  if nativeToken = zeroAddress then str "ETH" else nativeToken

/-- The full `  Native Token: …` line of the parameter display. -/
def nativeTokenLine (nativeToken : Str) : Str :=
  str "  Native Token: " ++ nativeTokenDisplay nativeToken

/-- The fields of the persisted deployment record, with the contracts object
kept as its rendered JSON text. -/
structure DeploymentInfo where
  chainId : Nat
  chainName : Str
  parentChain : Str
  parentChainId : Nat
  deployer : Str
  deployedAt : Str
  transactionHash : Str
  blockNumber : Nat
  validators : List Str
  batchPoster : Str
  nativeToken : Str
  contractsJson : Str := str "\x7b\x7d"
deriving DecidableEq

/-- The Deployment Summary output:
`console.log(JSON.stringify(deploymentInfo, null, 2))`, rendering every field
of the record verbatim with two-space indentation. -/
def deploymentSummaryJson (info : DeploymentInfo) : Str :=
  str "\x7b\n  \"chainId\": " ++ decChars info.chainId ++
  str ",\n  \"chainName\": \"" ++ info.chainName ++
  str "\",\n  \"parentChain\": \"" ++ info.parentChain ++
  str "\",\n  \"parentChainId\": " ++ decChars info.parentChainId ++
  str ",\n  \"deployer\": \"" ++ info.deployer ++
  str "\",\n  \"deployedAt\": \"" ++ info.deployedAt ++
  str "\",\n  \"transactionHash\": \"" ++ info.transactionHash ++
  str "\",\n  \"blockNumber\": " ++ decChars info.blockNumber ++
  str ",\n  \"validators\": [\n    \"" ++
  List.intercalate (str "\",\n    \"") info.validators ++
  str "\"\n  ],\n  \"batchPoster\": \"" ++ info.batchPoster ++
  str "\",\n  \"nativeToken\": \"" ++ info.nativeToken ++
  str "\",\n  \"contracts\": " ++ info.contractsJson ++ str "\n\x7d"

/-! Verification Helper (`verify-contracts`). -/

/-- The responses of the block-explorer API for one contract:
`getsourcecode` (`none` = the request threw; `some b` = whether status was
`'1'` with a non-empty source), `verifyproxycontract` (`none` = fetch threw),
and the later `checkproxyverification` status. -/
structure VerifyNet where
  alreadyVerified : Option Bool := none
  submitOk : Option Bool := none
  checkOk : Bool := false
deriving DecidableEq

/-- The per-contract result that `verifyContract` reports. -/
inductive VerifyStatus where
  | skippedNoKey
  | alreadyVerified
  | verified
  | pending
  | submitRejected
  | errored
deriving DecidableEq

/-- Model of `verifyContract`: returns immediately with a skip
notice when `ETHERSCAN_API_KEY` is unset; otherwise checks for existing
source (a thrown check is swallowed and verification proceeds), submits the
proxy verification, and polls the status once after a fixed delay.  Every
branch returns; nothing in this function exits the process. -/
def verifyContract (apiKey : Option Str) (net : VerifyNet) : VerifyStatus :=
  match apiKey with
  | none => VerifyStatus.skippedNoKey
  | some _ =>
    match net.alreadyVerified with
    | some true => VerifyStatus.alreadyVerified
    | _ =>
      match net.submitOk with
      | some true => if net.checkOk then VerifyStatus.verified else VerifyStatus.pending
      | some false => VerifyStatus.submitRejected
      | none => VerifyStatus.errored

/-- Overall outcome of a `verify-contracts` run. -/
inductive VerifyRunOutcome where
  | fatal (exitCode : Nat)
  | completed (statuses : List VerifyStatus)
deriving DecidableEq

/-- The addresses the helper iterates over: the six roles, keeping only those
with an address (`.filter(c => c.address)`). -/
def contractsToVerify (c : ContractsMap) : List Nat :=
  [c.rollup, c.inbox, c.outbox, c.bridge, c.sequencerInbox, c.adminProxy].filterMap id

/-- Model of the `verify-contracts` entry point: exits 1 when `ETHERSCAN_API_KEY` is unset
(before reading any deployment file), exits 1 when no deployment file exists,
exits 1 when the record's contracts mapping is empty, and otherwise verifies
each listed contract sequentially against its API responses. -/
def verifyContractsMain (apiKey : Option Str) (dir : List Str)
    (contracts : ContractsMap) (nets : List VerifyNet) : VerifyRunOutcome :=
  match apiKey with
  | none => VerifyRunOutcome.fatal 1
  | some k =>
    match latestDeploymentFile dir with
    | none => VerifyRunOutcome.fatal 1
    | some _ =>
      if contracts = emptyContracts then VerifyRunOutcome.fatal 1
      else
        VerifyRunOutcome.completed
          (((contractsToVerify contracts).zip nets).map
            (fun p => verifyContract (some k) p.2))

/-! Theorems. -/

/-! Decimal rendering versus `Nat.digits`. -/

theorem decAux_eq_map_digits : ∀ fuel n, n ≤ fuel →
    decAux fuel n = (Nat.digits 10 n).map digitChar := by
  intro fuel
  induction fuel with
  | zero =>
    intro n hn
    interval_cases n
    simp [decAux]
  | succ f ih =>
    intro n hn
    match n with
    | 0 => simp [decAux]
    | m + 1 =>
      have hdiv : (m + 1) / 10 < m + 1 := Nat.div_lt_self (Nat.succ_pos m) (by norm_num)
      have hle : (m + 1) / 10 ≤ f := by omega
      rw [Nat.digits_def' (by norm_num : (1:ℕ) < 10) (Nat.succ_pos m)]
      simp [decAux, ih _ hle]

theorem decChars_of_pos (n : Nat) (h : 0 < n) :
    decChars n = ((Nat.digits 10 n).map digitChar).reverse := by
  unfold decChars
  rw [if_neg (by omega), decAux_eq_map_digits n n le_rfl]

theorem decChars_length (n : Nat) (h : 0 < n) :
    (decChars n).length = (Nat.digits 10 n).length := by
  rw [decChars_of_pos n h]
  simp

theorem beVal_append_one (M : List Nat) (d : Nat) :
    beVal (M ++ [d]) = 10 * beVal M + d := by
  induction M with
  | nil => simp [beVal]
  | cons m ms ih =>
    simp only [List.cons_append, beVal, List.append_eq, ih, List.length_append,
      List.length_cons, List.length_nil]
    ring

theorem beVal_reverse_eq_ofDigits (L : List Nat) :
    beVal L.reverse = Nat.ofDigits 10 L := by
  induction L with
  | nil => simp [beVal]
  | cons d ds ih =>
    rw [List.reverse_cons, beVal_append_one, ih, Nat.ofDigits_cons]
    ring

theorem beVal_digits_reverse (n : Nat) :
    beVal ((Nat.digits 10 n).reverse) = n := by
  rw [beVal_reverse_eq_ofDigits, Nat.ofDigits_digits]

theorem beVal_lt_pow (X : List Nat) (h : ∀ d ∈ X, d < 10) :
    beVal X < 10 ^ X.length := by
  induction X with
  | nil => simp [beVal]
  | cons d ds ih =>
    have hd : d < 10 := h d (List.mem_cons_self d ds)
    have hds : beVal ds < 10 ^ ds.length := ih fun x hx => h x (List.mem_cons_of_mem d hx)
    have : d * 10 ^ ds.length + beVal ds < (d + 1) * 10 ^ ds.length := by
      have hm : (d + 1) * 10 ^ ds.length = d * 10 ^ ds.length + 10 ^ ds.length := by ring
      omega
    calc beVal (d :: ds) = d * 10 ^ ds.length + beVal ds := rfl
      _ < (d + 1) * 10 ^ ds.length := this
      _ ≤ 10 * 10 ^ ds.length := Nat.mul_le_mul_right _ (by omega)
      _ = 10 ^ (ds.length + 1) := by ring
      _ = 10 ^ (d :: ds).length := by simp

/-! Lexicographic comparison lemmas. -/

theorem digitChar_lt (d1 d2 : Nat) (h1 : d1 < 10) (h2 : d2 < 10) (h : d1 < d2) :
    digitChar d1 < digitChar d2 := by
  interval_cases d1 <;> interval_cases d2 <;> first | decide | exact absurd h (by decide)

theorem lexLt_cons (a b : Char) (as bs : Str) :
    lexLt (a :: as) (b :: bs) =
      if a < b then true else if b < a then false else lexLt as bs := rfl

theorem lexLt_append_left (P X Y : Str) :
    lexLt (P ++ X) (P ++ Y) = lexLt X Y := by
  induction P with
  | nil => rfl
  | cons c cs ih => simp [lexLt_cons, lt_irrefl, ih]

theorem lexLt_append_of_length_eq : ∀ (X Y Z W : Str), X.length = Y.length →
    lexLt X Y = true → lexLt (X ++ Z) (Y ++ W) = true := by
  intro X
  induction X with
  | nil =>
    intro Y Z W hlen h
    have : Y = [] := List.eq_nil_of_length_eq_zero hlen.symm
    subst this
    simp [lexLt] at h
  | cons x xs ih =>
    intro Y Z W hlen h
    match Y with
    | [] => simp at hlen
    | y :: ys =>
      simp only [List.cons_append, lexLt_cons] at h ⊢
      by_cases hxy : x < y
      · simp [hxy]
      · by_cases hyx : y < x
        · simp [hxy, hyx] at h
        · simp only [if_neg hxy, if_neg hyx] at h ⊢
          exact ih ys Z W (by simpa using hlen) h

theorem lexLt_asymm : ∀ (X Y : Str), lexLt X Y = true → lexLt Y X = false := by
  intro X
  induction X with
  | nil =>
    intro Y h
    match Y with
    | [] => simpa [lexLt] using h
    | y :: ys => simp [lexLt]
  | cons x xs ih =>
    intro Y h
    match Y with
    | [] => simp [lexLt] at h
    | y :: ys =>
      simp only [lexLt_cons] at h ⊢
      by_cases hxy : x < y
      · have hyx : ¬ y < x := fun hc => absurd (lt_trans hxy hc) (lt_irrefl x)
        simp [hxy, hyx]
      · by_cases hyx : y < x
        · simp [hxy, hyx] at h
        · simp only [if_neg hxy, if_neg hyx] at h ⊢
          exact ih ys h

theorem lexLt_map_digitChar_of_beVal_lt : ∀ (X Y : List Nat), X.length = Y.length →
    (∀ d ∈ X, d < 10) → (∀ d ∈ Y, d < 10) → beVal X < beVal Y →
    lexLt (X.map digitChar) (Y.map digitChar) = true := by
  intro X
  induction X with
  | nil =>
    intro Y hlen _ _ hval
    have : Y = [] := List.eq_nil_of_length_eq_zero hlen.symm
    subst this
    simp [beVal] at hval
  | cons x xs ih =>
    intro Y hlen hX hY hval
    match Y with
    | [] => simp at hlen
    | y :: ys =>
      have hlen' : xs.length = ys.length := by simpa using hlen
      have hx : x < 10 := hX x (List.mem_cons_self x xs)
      have hy : y < 10 := hY y (List.mem_cons_self y ys)
      simp only [List.map_cons, lexLt_cons]
      rcases lt_trichotomy x y with hxy | hxy | hxy
      · rw [if_pos (digitChar_lt x y hx hy hxy)]
      · subst hxy
        rw [if_neg (lt_irrefl _), if_neg (lt_irrefl _)]
        apply ih ys hlen' (fun d hd => hX d (List.mem_cons_of_mem x hd))
          (fun d hd => hY d (List.mem_cons_of_mem x hd))
        have hv : x * 10 ^ xs.length + beVal xs < x * 10 ^ ys.length + beVal ys := hval
        rw [hlen'] at hv
        exact Nat.lt_of_add_lt_add_left hv
      · exfalso
        have hys : beVal ys < 10 ^ ys.length :=
          beVal_lt_pow ys (fun d hd => hY d (List.mem_cons_of_mem y hd))
        have h1 : beVal (y :: ys) < (y + 1) * 10 ^ ys.length := by
          have hm : (y + 1) * 10 ^ ys.length = y * 10 ^ ys.length + 10 ^ ys.length := by
            ring
          simp only [beVal]
          omega
        have h2 : (y + 1) * 10 ^ ys.length ≤ x * 10 ^ xs.length := by
          rw [hlen']
          exact Nat.mul_le_mul_right _ (by omega)
        have h3 : x * 10 ^ xs.length ≤ beVal (x :: xs) := Nat.le_add_right _ _
        omega

theorem lexLt_decChars (t1 t2 : Nat) (h1 : 0 < t1) (hlt : t1 < t2)
    (hlen : (decChars t1).length = (decChars t2).length) :
    lexLt (decChars t1) (decChars t2) = true := by
  have h2 : 0 < t2 := lt_trans h1 hlt
  have hdiglen : (Nat.digits 10 t1).length = (Nat.digits 10 t2).length := by
    rw [← decChars_length t1 h1, ← decChars_length t2 h2]
    exact hlen
  rw [decChars_of_pos t1 h1, decChars_of_pos t2 h2, ← List.map_reverse, ← List.map_reverse]
  apply lexLt_map_digitChar_of_beVal_lt
  · simpa using hdiglen
  · intro d hd
    exact Nat.digits_lt_base (by norm_num) (List.mem_reverse.mp hd)
  · intro d hd
    exact Nat.digits_lt_base (by norm_num) (List.mem_reverse.mp hd)
  · rw [beVal_digits_reverse, beVal_digits_reverse]
    exact hlt

theorem isDeploymentFile_deploymentFilename (c t : Nat) :
    isDeploymentFile (deploymentFilename c t) = true := by
  unfold isDeploymentFile deploymentFilename jsStartsWith jsEndsWith
  apply Bool.and_eq_true_iff.mpr
  constructor
  · have h : str "deployment-" ++ (decChars c ++ str "-" ++ decChars t ++ str ".json") =
        str "deployment-" ++ decChars c ++ str "-" ++ decChars t ++ str ".json" := by
      simp [List.append_assoc]
    rw [← h, List.take_left]
    exact beq_self_eq_true _
  · have h : (str "deployment-" ++ decChars c ++ str "-" ++ decChars t) ++ str ".json" =
        str "deployment-" ++ decChars c ++ str "-" ++ decChars t ++ str ".json" := by
      simp [List.append_assoc]
    rw [← h]
    have hlen : ((str "deployment-" ++ decChars c ++ str "-" ++ decChars t) ++
        str ".json").length =
        (str "deployment-" ++ decChars c ++ str "-" ++ decChars t).length +
        (str ".json").length := List.length_append _ _
    rw [hlen, Nat.add_sub_cancel, List.drop_left]
    exact beq_self_eq_true _

theorem lexLt_deploymentFilename (c t1 t2 : Nat) (h1 : 0 < t1) (hlt : t1 < t2)
    (hlen : (decChars t1).length = (decChars t2).length) :
    lexLt (deploymentFilename c t1) (deploymentFilename c t2) = true := by
  unfold deploymentFilename
  have e1 : ∀ t : Nat, str "deployment-" ++ decChars c ++ str "-" ++ decChars t ++
      str ".json" =
      (str "deployment-" ++ decChars c ++ str "-") ++ (decChars t ++ str ".json") := by
    intro t
    simp [List.append_assoc]
  rw [e1 t1, e1 t2, lexLt_append_left]
  exact lexLt_append_of_length_eq _ _ _ _ hlen (lexLt_decChars t1 t2 h1 hlt hlen)

/-- C1. The implementation's lexical sort of `deployment-<chainId>-<unixMillis>.json`
file names does NOT coincide with chronological order across different chain
ids: in a directory holding a record for chain id 100 written at unix-millis
1700000000001 and a record for chain id 200 written earlier at 1700000000000,
`persist` followed by `loadLatest` returns the chain-200 record (lexically
greatest file name) and not the record with the later timestamp. -/
theorem loadLatest_crossChain_counterexample :
    latestDeploymentFile (persist (persist [] 200 1700000000000) 100 1700000000001) =
      some (deploymentFilename 200 1700000000000) ∧
    1700000000000 < 1700000000001 ∧
    latestDeploymentFile (persist (persist [] 200 1700000000000) 100 1700000000001) ≠
      some (deploymentFilename 100 1700000000001) := by
  refine ⟨by decide, by decide, by decide⟩

/-- C1 (amended). For records of a single chain id written at two different
timestamps of equal decimal length (true of unix-millis timestamps through the
year 2286), `persist` followed by `loadLatest` returns the record with the
later timestamp, whichever order the directory lists the two files in: here
the lexical sort of file names does coincide with chronological order. -/
theorem loadLatest_sameChain_returns_later (c t1 t2 : Nat) (h1 : 0 < t1)
    (hlt : t1 < t2) (hlen : (decChars t1).length = (decChars t2).length) :
    latestDeploymentFile (persist (persist [] c t1) c t2) =
      some (deploymentFilename c t2) ∧
    latestDeploymentFile (persist (persist [] c t2) c t1) =
      some (deploymentFilename c t2) := by
  have hf1 := isDeploymentFile_deploymentFilename c t1
  have hf2 := isDeploymentFile_deploymentFilename c t2
  have hlex : lexLt (deploymentFilename c t1) (deploymentFilename c t2) = true :=
    lexLt_deploymentFilename c t1 t2 h1 hlt hlen
  have hlex' : lexLt (deploymentFilename c t2) (deploymentFilename c t1) = false :=
    lexLt_asymm _ _ hlex
  constructor
  · show latestDeploymentFile [deploymentFilename c t1, deploymentFilename c t2] = _
    unfold latestDeploymentFile
    rw [show List.filter isDeploymentFile
        [deploymentFilename c t1, deploymentFilename c t2] =
        [deploymentFilename c t1, deploymentFilename c t2] by
      simp [List.filter, hf1, hf2]]
    simp [sortStrings, insertSorted, hlex']
  · show latestDeploymentFile [deploymentFilename c t2, deploymentFilename c t1] = _
    unfold latestDeploymentFile
    rw [show List.filter isDeploymentFile
        [deploymentFilename c t2, deploymentFilename c t1] =
        [deploymentFilename c t2, deploymentFilename c t1] by
      simp [List.filter, hf1, hf2]]
    simp [sortStrings, insertSorted, hlex]

/-- C1 (amended) witness: chain id 100, timestamps 1700000000000 < 1700000000001. -/
theorem loadLatest_sameChain_returns_later_witness :
    0 < 1700000000000 ∧
    latestDeploymentFile (persist (persist [] 100 1700000000000) 100 1700000000001) =
      some (deploymentFilename 100 1700000000001) := by
  exact ⟨by decide,
    (loadLatest_sameChain_returns_later 100 1700000000000 1700000000001
      (by decide) (by decide) (by decide)).1⟩

theorem findRollupCreated_append_of_none (pre : List EthLog) (rest : List EthLog)
    (hpre : ∀ l ∈ pre, decodeEventLogRollupCreated l = none) :
    findRollupCreated (pre ++ rest) = findRollupCreated rest := by
  induction pre with
  | nil => rfl
  | cons p ps ih =>
    have hp : decodeEventLogRollupCreated p = none := hpre p (List.mem_cons_self p ps)
    simp only [List.cons_append, findRollupCreated, hp]
    exact ih fun l hl => hpre l (List.mem_cons_of_mem p hl)

theorem findRollupCreated_none (logs : List EthLog)
    (h : ∀ l ∈ logs, decodeEventLogRollupCreated l = none) :
    findRollupCreated logs = none := by
  have := findRollupCreated_append_of_none logs [] h
  simpa using this

theorem decode_encodeRollupCreated (a : RollupCreatedArgs) (ha : validAddrs a) :
    decodeEventLogRollupCreated (encodeRollupCreated a) = some a := by
  obtain ⟨r, nt, i, o, rei, cm, ap, si, b, ue, vwc⟩ := a
  obtain ⟨h1, h2, h3, h4, h5, h6, h7, h8, h9, h10, h11⟩ := ha
  have e : (2:Nat) ^ 160 = 1461501637330902918203684832716283019655932542976 := by
    norm_num
  simp only [validAddrs, e] at h1 h2 h3 h4 h5 h6 h7 h8 h9 h10 h11
  simp only [decodeEventLogRollupCreated, encodeRollupCreated, if_pos rfl, addr160]
  rw [Nat.mod_eq_of_lt h1, Nat.mod_eq_of_lt h2, Nat.mod_eq_of_lt h3,
    Nat.mod_eq_of_lt h4, Nat.mod_eq_of_lt h5, Nat.mod_eq_of_lt h6,
    Nat.mod_eq_of_lt h7, Nat.mod_eq_of_lt h8, Nat.mod_eq_of_lt h9,
    Nat.mod_eq_of_lt h10, Nat.mod_eq_of_lt h11]
  simp

/-- C2. For a receipt whose logs contain exactly one entry carrying the
`RollupCreated` schema — surrounded by any number of logs that do not decode
under it, in any positions — the scan accepts that entry (swallowing the
decode failures before it), decodes all 11 address fields (2 indexed from the
topics, 9 positional from the data) exactly as encoded, and the resulting
contracts mapping is exactly the role projection of those fields. -/
theorem reconciler_extracts_unique_match (pre post : List EthLog)
    (a : RollupCreatedArgs) (ha : validAddrs a)
    (hpre : ∀ l ∈ pre, decodeEventLogRollupCreated l = none)
    (hpost : ∀ l ∈ post, decodeEventLogRollupCreated l = none) :
    decodeEventLogRollupCreated (encodeRollupCreated a) = some a ∧
    findRollupCreated (pre ++ encodeRollupCreated a :: post) = some a ∧
    parseDeploymentContracts (pre ++ encodeRollupCreated a :: post) =
      some (contractsOfArgs a) := by
  have hdec := decode_encodeRollupCreated a ha
  have hfind : findRollupCreated (pre ++ encodeRollupCreated a :: post) = some a := by
    rw [findRollupCreated_append_of_none pre _ hpre]
    simp [findRollupCreated, hdec]
  exact ⟨hdec, hfind, by simp [parseDeploymentContracts, hfind]⟩

/-- C2 witness: a receipt `[unrelated, RollupCreated, unrelated]`. -/
theorem reconciler_extracts_unique_match_witness :
    validAddrs ⟨11, 0, 12, 13, 14, 15, 16, 17, 18, 19, 20⟩ ∧
    (∀ l ∈ [EthLog.mk [5, 6] [7]], decodeEventLogRollupCreated l = none) ∧
    (∀ l ∈ [EthLog.mk [8] []], decodeEventLogRollupCreated l = none) ∧
    findRollupCreated ([EthLog.mk [5, 6] [7]] ++
      encodeRollupCreated ⟨11, 0, 12, 13, 14, 15, 16, 17, 18, 19, 20⟩ ::
      [EthLog.mk [8] []]) = some ⟨11, 0, 12, 13, 14, 15, 16, 17, 18, 19, 20⟩ := by
  refine ⟨by decide, by decide, by decide, ?_⟩
  exact (reconciler_extracts_unique_match [EthLog.mk [5, 6] [7]] [EthLog.mk [8] []]
    ⟨11, 0, 12, 13, 14, 15, 16, 17, 18, 19, 20⟩ (by decide) (by decide) (by decide)).2.1

/-- C3. For a receipt none of whose logs decodes under the `RollupCreated`
schema, reconciliation in `deploy-orbit.ts` completes without throwing and is
not fatal: the deployment record is persisted with an empty contracts mapping,
the process does not exit at this step, and the operator is instructed to
re-run reconciliation (`parse-deployment`) against the same stored
transaction hash. -/
theorem reconcile_no_match_nonfatal (sdk : ContractsMap) (logs : List EthLog)
    (h : ∀ l ∈ logs, decodeEventLogRollupCreated l = none) :
    reconcileAndPersist sdk logs =
      { contracts := emptyContracts, persisted := true, exited := false,
        instructedRerun := true } := by
  unfold reconcileAndPersist
  rw [findRollupCreated_none logs h]

/-- C3 witness: a receipt with two non-matching logs. -/
theorem reconcile_no_match_nonfatal_witness :
    (∀ l ∈ [EthLog.mk [5, 6] [7], EthLog.mk [] []],
      decodeEventLogRollupCreated l = none) ∧
    reconcileAndPersist emptyContracts [EthLog.mk [5, 6] [7], EthLog.mk [] []] =
      { contracts := emptyContracts, persisted := true, exited := false,
        instructedRerun := true } := by
  exact ⟨by decide,
    reconcile_no_match_nonfatal emptyContracts [EthLog.mk [5, 6] [7], EthLog.mk [] []]
      (by decide)⟩

theorem hexDigit_isHex (d : Nat) (h : d < 16) : isHexChar (hexDigit d) = true := by
  interval_cases d <;> decide

theorem toHex8_mem_hex (w : Nat) : ∀ c ∈ toHex8 w, isHexChar c = true := by
  intro c hc
  simp only [toHex8, List.mem_cons, List.not_mem_nil, or_false] at hc
  rcases hc with hc | hc | hc | hc | hc | hc | hc | hc <;> subst hc <;>
    exact hexDigit_isHex _ (Nat.mod_lt _ (by norm_num))

theorem sha256Hex_length (msg : List Nat) : (sha256Hex msg).length = 64 := by
  simp [sha256Hex, toHex8]

theorem sha256Hex_mem_hex (msg : List Nat) : ∀ c ∈ sha256Hex msg, isHexChar c = true := by
  intro c hc
  simp only [sha256Hex, List.mem_append] at hc
  rcases hc with ((((((hc | hc) | hc) | hc) | hc) | hc) | hc) | hc <;>
    exact toHex8_mem_hex _ c hc

/-- C4. When no namespace option is supplied, the compose generator derives the
DA namespace as a pure function of the chain id — `'0x'` plus the first 20 hex
characters (10 bytes) of the SHA-256 digest of `'orbit-' + chainId` — so it is
deterministic (computing it twice yields the same value), the derived value is
exactly 20 lower-case hex characters after the `0x` marker, and distinct chain
ids yield distinct values on the concrete pair 100 / 200. -/
theorem autoNamespace_deterministic_20hex (chainId : Nat) :
    autoNamespace chainId =
      str "0x" ++ (sha256Hex (strBytes (str "orbit-" ++ decChars chainId))).take 20 ∧
    autoNamespace chainId = autoNamespace chainId ∧
    (autoNamespaceHex chainId).length = 20 ∧
    (∀ c ∈ autoNamespaceHex chainId, isHexChar c = true) ∧
    autoNamespace 100 ≠ autoNamespace 200 := by
  refine ⟨rfl, rfl, ?_, ?_, ?_⟩
  · simp [autoNamespaceHex, List.length_take, sha256Hex_length]
  · intro c hc
    exact sha256Hex_mem_hex _ c (List.take_subset 20 _ hc)
  · decide

theorem jsOrStr_some_ne (v d : Str) (h : v ≠ []) : jsOrStr (some v) d = v := by
  simp [jsOrStr, h]

theorem strip0x_append0x (n : Str) : strip0x (str "0x" ++ n) = n := rfl

theorem strip0x_no0x (n : Str) (h : jsStartsWith (str "0x") n = false) :
    strip0x n = n := by
  simp [strip0x, h]

/-- C6 (amended). For every invocation of the compose generator: with no key
path option, the DA-server service mounts the named persistent volume
`celestia-keys`; with a non-empty key path, the service instead carries a
single bind mount to that path and mounts no named key volume (an empty key
path is JavaScript-falsy and behaves like the unsupplied case) — but in both
cases the descriptor's top-level volumes section still declares the
`celestia-keys` named volume. -/
theorem composeKeyVolume_branches (path : Str) (cfg : NodeConfigInput)
    (opts : CelestiaOptions) (p : Str) (hp : p ≠ []) :
    (generateDockerCompose path cfg
        { opts with celestiaKeyPath := none }).celestiaServer.volumes =
      some [str "celestia-keys:/home/celestia/"] ∧
    (generateDockerCompose path cfg
        { opts with celestiaKeyPath := none }).volumeCelestiaKeys = true ∧
    (generateDockerCompose path cfg
        { opts with celestiaKeyPath := some p }).celestiaServer.volumes =
      some [p ++ str ":/home/celestia/"] ∧
    (generateDockerCompose path cfg
        { opts with celestiaKeyPath := some p }).volumeCelestiaKeys = true ∧
    (generateDockerCompose path cfg
        { opts with celestiaKeyPath := some [] }).celestiaServer.volumes =
      some [str "celestia-keys:/home/celestia/"] := by
  have ht : jsTruthy p = true := by
    simp [jsTruthy, hp]
  refine ⟨rfl, rfl, ?_, rfl, rfl⟩
  simp [generateDockerCompose, ht]

/-- C6 (amended) witness at the non-empty key path `./keys`. -/
theorem composeKeyVolume_branches_witness :
    str "./keys" ≠ [] ∧
    (generateDockerCompose (str "p") ⟨1, str "t", none⟩
        { celestiaKeyPath := some (str "./keys") }).celestiaServer.volumes =
      some [str "./keys" ++ str ":/home/celestia/"] := by
  exact ⟨by decide,
    (composeKeyVolume_branches (str "p") ⟨1, str "t", none⟩ {} (str "./keys")
      (by decide)).2.2.1⟩

theorem generateYaml_declares_keys (cfg : DockerComposeConfig)
    (h : cfg.volumeCelestiaKeys = true) :
    (str "\n  celestia-keys:") <:+: generateYaml cfg := by
  unfold generateYaml
  rw [h]
  simp only [if_true]
  exact List.infix_append _ _ _

/-- C6 (counterexample). With a key path supplied (`./keys`), the generated
descriptor still declares the `celestia-keys` named volume in its top-level
volumes section (the rendered YAML contains the `celestia-keys:` declaration
line), contradicting the claim that no anonymous/named key volume is declared
in that case; only the service-level mount is the bare bind mount. -/
theorem composeKeyPath_counterexample :
    (generateDockerCompose (str "./config/nodeConfig.json")
        ⟨412346, str "test", none⟩
        { celestiaNamespace := some (str "0x1234567890abcdef1234"),
          celestiaKeyPath := some (str "./keys") }).volumeCelestiaKeys = true ∧
    (generateDockerCompose (str "./config/nodeConfig.json")
        ⟨412346, str "test", none⟩
        { celestiaNamespace := some (str "0x1234567890abcdef1234"),
          celestiaKeyPath := some (str "./keys") }).celestiaServer.volumes =
      some [str "./keys:/home/celestia/"] ∧
    (str "\n  celestia-keys:") <:+:
      (generateYaml (generateDockerCompose (str "./config/nodeConfig.json")
        ⟨412346, str "test", none⟩
        { celestiaNamespace := some (str "0x1234567890abcdef1234"),
          celestiaKeyPath := some (str "./keys") })) := by
  exact ⟨rfl, rfl, generateYaml_declares_keys _ rfl⟩

/-- C10 (counterexample). Normalization strips at most one leading `0x`, so it
is not idempotent on every user-supplied value, and supplying the namespace
value `0x12` with and without an added `0x` prefix yields different generated
descriptors (arguments `12` versus `0x12`), contradicting the claim read over
every user-supplied value. -/
theorem namespaceArg_counterexample :
    strip0x (strip0x (str "0x0x12")) ≠ strip0x (str "0x0x12") ∧
    generateDockerCompose (str "p") ⟨1, str "t", none⟩
        { celestiaNamespace := some (str "0x12") } ≠
      generateDockerCompose (str "p") ⟨1, str "t", none⟩
        { celestiaNamespace := some (str "0x0x12") } := by
  exact ⟨by decide, by decide⟩

/-- C10 (amended). For every namespace value that is nonempty and does not
itself begin with `0x` (true of every valid hex namespace id), the
`--celestia.namespace-id` argument is the supplied value with the optional
leading `0x` stripped, and supplying the value with or without the `0x`
prefix yields identical generated descriptors. -/
theorem namespaceArg_strips_0x (path : Str) (cfg : NodeConfigInput)
    (opts : CelestiaOptions) (n : Str) (hne : n ≠ [])
    (h0x : jsStartsWith (str "0x") n = false) :
    strip0x (str "0x" ++ n) = n ∧ strip0x n = n ∧
    generateDockerCompose path cfg
        { opts with celestiaNamespace := some (str "0x" ++ n) } =
      generateDockerCompose path cfg { opts with celestiaNamespace := some n } := by
  refine ⟨strip0x_append0x n, strip0x_no0x n h0x, ?_⟩
  have e1 : jsOrStr (some n) (autoNamespace cfg.chainId) = n :=
    jsOrStr_some_ne n _ hne
  have e2 : jsOrStr (some (str "0x" ++ n)) (autoNamespace cfg.chainId) =
      str "0x" ++ n :=
    jsOrStr_some_ne _ _ (by simp [str])
  simp only [generateDockerCompose, e1, e2, strip0x_append0x, strip0x_no0x n h0x]

/-- C10 (amended) witness at the namespace value `1234567890abcdef1234`. -/
theorem namespaceArg_strips_0x_witness :
    str "1234567890abcdef1234" ≠ [] ∧
    jsStartsWith (str "0x") (str "1234567890abcdef1234") = false ∧
    generateDockerCompose (str "p") ⟨1, str "t", none⟩
        { celestiaNamespace := some (str "0x" ++ str "1234567890abcdef1234") } =
      generateDockerCompose (str "p") ⟨1, str "t", none⟩
        { celestiaNamespace := some (str "1234567890abcdef1234") } := by
  exact ⟨by decide, by decide,
    (namespaceArg_strips_0x (str "p") ⟨1, str "t", none⟩ {}
      (str "1234567890abcdef1234") (by decide) (by decide)).2.2⟩

/-- C5. With a DA provider enabled under default settings (no `DA_PROVIDER_*`
overrides), the generated NodeRunConfig's `da-provider` block has
`enable = true`, `with-writer = true`, `retries = 3`, the documented default
retry-error pattern byte-for-byte, an `arg-log-limit` of 2048 and a websocket
message-size limit of 256 MiB (268435456); and for every environment and every
base config, the conflicting built-in `data-availability` and blob-reader
settings are forced off. -/
theorem daProvider_defaults (node : NodeSettingsBlock) (env : DaEnv) :
    addDaProviderConfig {} node =
      { daProvider := some
          { enable := true, withWriter := true,
            rpc :=
              { url := str "http://celestia-server:26657", retries := 3,
                retryErrors := str "websocket: close.*|dial tcp .*|.*i/o timeout|.*connection reset by peer|.*connection refused",
                argLogLimit := 2048, websocketMessageSizeLimit := 268435456 } },
        dataAvailabilityEnable := false, disableBlobReader := true } ∧
    (addDaProviderConfig env node).dataAvailabilityEnable = false ∧
    (addDaProviderConfig env node).disableBlobReader = true := by
  exact ⟨rfl, rfl, rfl⟩

/-- C8. For every deployer balance strictly below the 0.5-ETH threshold, the
pipeline aborts before any transaction is built or sent: the observable trace
is exactly balance read, user-facing message with the faucet link, exit code
1 — and contains no transaction build and no RPC submission. -/
theorem balanceGate_aborts (balance : Nat) (h : balance < balanceThresholdWei) :
    deployPipelineActions balance =
      [DeployAction.rpcGetBalance,
       DeployAction.printInsufficientBalance (str "https://sepoliafaucet.com/"),
       DeployAction.exitProcess 1] ∧
    DeployAction.rpcSendTransaction ∉ deployPipelineActions balance ∧
    DeployAction.buildTransaction ∉ deployPipelineActions balance := by
  have he : deployPipelineActions balance =
      [DeployAction.rpcGetBalance,
       DeployAction.printInsufficientBalance (str "https://sepoliafaucet.com/"),
       DeployAction.exitProcess 1] := by
    unfold deployPipelineActions
    rw [if_pos h]
    rfl
  refine ⟨he, ?_, ?_⟩ <;> rw [he] <;> simp [str]

/-- C8 witness: balance 0.3 ETH (300000000000000000 wei) is below the
threshold and the pipeline aborts with zero submissions. -/
theorem balanceGate_aborts_witness :
    300000000000000000 < balanceThresholdWei ∧
    deployPipelineActions 300000000000000000 =
      [DeployAction.rpcGetBalance,
       DeployAction.printInsufficientBalance (str "https://sepoliafaucet.com/"),
       DeployAction.exitProcess 1] := by
  exact ⟨by decide, (balanceGate_aborts 300000000000000000 (by decide)).1⟩

theorem summary_contains_nativeToken (info : DeploymentInfo) :
    info.nativeToken <:+: deploymentSummaryJson info := by
  refine ⟨str "\x7b\n  \"chainId\": " ++ decChars info.chainId ++
    str ",\n  \"chainName\": \"" ++ info.chainName ++
    str "\",\n  \"parentChain\": \"" ++ info.parentChain ++
    str "\",\n  \"parentChainId\": " ++ decChars info.parentChainId ++
    str ",\n  \"deployer\": \"" ++ info.deployer ++
    str "\",\n  \"deployedAt\": \"" ++ info.deployedAt ++
    str "\",\n  \"transactionHash\": \"" ++ info.transactionHash ++
    str "\",\n  \"blockNumber\": " ++ decChars info.blockNumber ++
    str ",\n  \"validators\": [\n    \"" ++
    List.intercalate (str "\",\n    \"") info.validators ++
    str "\"\n  ],\n  \"batchPoster\": \"" ++ info.batchPoster ++
    str "\",\n  \"nativeToken\": \"",
    str "\",\n  \"contracts\": " ++ info.contractsJson ++ str "\n\x7d", ?_⟩
  unfold deploymentSummaryJson
  simp [List.append_assoc]

/-- C9 (counterexample). For a deployment whose native-token address is the
all-zero address, the Deployment Summary
(`console.log(JSON.stringify(deploymentInfo, null, 2))`) is user-facing
summary output in which the zero address itself appears verbatim,
contradicting the claim that it never appears on any user-facing summary. -/
theorem zeroAddress_printed_counterexample :
    (DeploymentInfo.mk 412346 (str "My Orbit Chain") (str "sepolia") 11155111
      (str "0x1111111111111111111111111111111111111111")
      (str "2026-01-01T00:00:00.000Z") (str "0xdead") 123
      [str "0x1111111111111111111111111111111111111111"]
      (str "0x1111111111111111111111111111111111111111") zeroAddress
      (str "\x7b\x7d")).nativeToken = zeroAddress ∧
    zeroAddress <:+: deploymentSummaryJson (DeploymentInfo.mk 412346
      (str "My Orbit Chain") (str "sepolia") 11155111
      (str "0x1111111111111111111111111111111111111111")
      (str "2026-01-01T00:00:00.000Z") (str "0xdead") 123
      [str "0x1111111111111111111111111111111111111111"]
      (str "0x1111111111111111111111111111111111111111") zeroAddress
      (str "\x7b\x7d")) := by
  exact ⟨rfl, summary_contains_nativeToken (DeploymentInfo.mk 412346
    (str "My Orbit Chain") (str "sepolia") 11155111
    (str "0x1111111111111111111111111111111111111111")
    (str "2026-01-01T00:00:00.000Z") (str "0xdead") 123
    [str "0x1111111111111111111111111111111111111111"]
    (str "0x1111111111111111111111111111111111111111") zeroAddress
    (str "\x7b\x7d"))⟩

/-- C9 (amended). For a deployment whose native-token address is the all-zero
address, the Deployment Configuration parameter display treats it as the
chain's native currency — the line reads `  Native Token: ETH` and the zero
address does not appear in it — but the Deployment Summary JSON dump renders
the record verbatim, so the zero address does appear in that user-facing
summary output. -/
theorem nativeToken_display_amended (info : DeploymentInfo)
    (h : info.nativeToken = zeroAddress) :
    nativeTokenLine info.nativeToken = str "  Native Token: ETH" ∧
    ¬ zeroAddress <:+: nativeTokenLine info.nativeToken ∧
    zeroAddress <:+: deploymentSummaryJson info := by
  rw [h]
  refine ⟨by decide, by decide, ?_⟩
  have := summary_contains_nativeToken info
  rwa [h] at this

/-- C9 (amended) witness at a concrete zero-native-token record. -/
theorem nativeToken_display_amended_witness :
    (DeploymentInfo.mk 412346 (str "My Orbit Chain") (str "sepolia") 11155111
      (str "0x2222222222222222222222222222222222222222")
      (str "2026-01-01T00:00:00.000Z") (str "0xbeef") 7
      [str "0x2222222222222222222222222222222222222222"]
      (str "0x2222222222222222222222222222222222222222") zeroAddress
      (str "\x7b\x7d")).nativeToken = zeroAddress ∧
    nativeTokenLine (DeploymentInfo.mk 412346 (str "My Orbit Chain")
      (str "sepolia") 11155111
      (str "0x2222222222222222222222222222222222222222")
      (str "2026-01-01T00:00:00.000Z") (str "0xbeef") 7
      [str "0x2222222222222222222222222222222222222222"]
      (str "0x2222222222222222222222222222222222222222") zeroAddress
      (str "\x7b\x7d")).nativeToken = str "  Native Token: ETH" := by
  exact ⟨rfl, (nativeToken_display_amended _ rfl).1⟩

/-- C7 (counterexample). With `ETHERSCAN_API_KEY` absent, the
`verify-contracts` entry point aborts the whole run with exit code 1 before
any contract is processed — it does not complete with a per-contract skip
for the contracts of the deployment record, contradicting the claim that the
run completes non-fatally for every contract. -/
theorem verifyNoKey_counterexample :
    verifyContractsMain none [deploymentFilename 412346 1700000000000]
      (contractsOfArgs ⟨11, 0, 12, 13, 14, 15, 16, 17, 18, 19, 20⟩)
      [{}, {}, {}, {}, {}, {}] = VerifyRunOutcome.fatal 1 ∧
    verifyContractsMain none [deploymentFilename 412346 1700000000000]
      (contractsOfArgs ⟨11, 0, 12, 13, 14, 15, 16, 17, 18, 19, 20⟩)
      [{}, {}, {}, {}, {}, {}] ≠
      VerifyRunOutcome.completed (List.replicate 6 VerifyStatus.skippedNoKey) := by
  exact ⟨rfl, fun h => VerifyRunOutcome.noConfusion h⟩

/-- C7 (amended). With the API credential absent the entry point exits 1
immediately, before any per-contract work; the per-contract skip guard does
exist in `verifyContract` — invoked without a key it returns a skip, not a
fatal error — but it is unreachable from the entry point, which performs its
own fatal key check first. -/
theorem verifyNoKey_amended (dir : List Str) (contracts : ContractsMap)
    (nets : List VerifyNet) (net : VerifyNet) :
    verifyContractsMain none dir contracts nets = VerifyRunOutcome.fatal 1 ∧
    verifyContract none net = VerifyStatus.skippedNoKey := by
  exact ⟨rfl, rfl⟩
